import Mathlib

/-!
# ROBOT-GRASP registration pipeline (`PCL.hpp`, `PCL.cpp`)

A shallow embedding of `Downsample` and `Registration` from
`src/ROBOT-GRASP/src/PCL.cpp`, in exact rational arithmetic.

* `float`/`double` values are rationals (`ℚ`), `int` values are integers.
* A `PointCloudNT::Ptr &` argument that the C++ mutates in place is passed in
  as a value and handed back in the result.
* The PCL classes the source instantiates (`NormalEstimationOMP`,
  `FPFHEstimationOMP`, `SampleConsensusPrerejective`, `IterativeClosestPoint`)
  are library code: they enter as the fields of `PclStages`.
* `pcl::VoxelGrid` and `pcl::transformPointCloud` are library code too; they
  are modelled from the specification's description of them.
* PCL.cpp defines `Registration` with a `float leaf` argument; PCL.hpp declares
  an overload that takes a `RegisterParameter` record and whose body is not
  part of the sources. That overload, `RegistrationWithParameter`, is modelled
  from the specification.
* The `PCLVisualizer` calls and the `ScopeTime` timers are display and
  diagnostics only and are left out, except for the flag that the viewer spun.
-/

namespace RobotGrasp

/-! ## Data model -/

/-- Surface normal and curvature carried by a `pcl::PointNormal`. -/
structure Normal where
  normal_x : ℚ
  normal_y : ℚ
  normal_z : ℚ
  curvature : ℚ
deriving DecidableEq

/-- The point type `PointNT` (`pcl::PointNormal`): a position and, when it has
been estimated, a surface normal with curvature. -/
structure PointNT where
  x : ℚ
  y : ℚ
  z : ℚ
  normal : Option Normal
deriving DecidableEq

/-- The cloud type `PointCloudNT`: an ordered sequence of points. -/
abbrev PointCloudNT := List PointNT

/-- The descriptor type `FeatureT` (`pcl::FPFHSignature33`): 33 histogram bins. -/
abbrev FeatureT := Fin 33 → ℚ

/-- The descriptor cloud type `FeatureCloudT`. -/
abbrev FeatureCloudT := List FeatureT

/-- The pose type `Eigen::Matrix4f`, a 4×4 matrix. -/
abbrev Matrix4f := Matrix (Fin 4) (Fin 4) ℚ

/-- Modelled from the spec: the error taxonomy of section 7. The sources declare
no error type and raise none of these. -/
inductive PipelineError where
  | InvalidParameterError
  | InsufficientDataError
  | GlobalAlignmentFailure
deriving DecidableEq

/-! ## Voxel grid -/

/-- The settings of a `pcl::VoxelGrid<PointNT>` that the source makes:
`setLeafSize` and `setInputCloud`. -/
structure VoxelGrid where
  LeafSize : ℚ × ℚ × ℚ
  InputCloud : PointCloudNT

/-- Modelled from the spec: the index of the voxel that holds the point `p`, in
the uniform grid with edge lengths `lx`, `ly`, `lz` (section 4.1). -/
def voxelIndex (lx ly lz : ℚ) (p : PointNT) : ℤ × ℤ × ℤ :=
  (⌊p.x / lx⌋, ⌊p.y / ly⌋, ⌊p.z / lz⌋)

/-- Modelled from the spec: the centroid of a list of points, the representative
of a voxel (section 4.1); it carries no normal. -/
def centroid (ps : List PointNT) : PointNT :=
  { x := (ps.map PointNT.x).sum / ps.length
    y := (ps.map PointNT.y).sum / ps.length
    z := (ps.map PointNT.z).sum / ps.length
    normal := none }

/-- Modelled from the spec: the non-empty voxels of the grid, those that hold at
least one point of `input`, each listed once. -/
def occupiedVoxels (lx ly lz : ℚ) (input : PointCloudNT) : List (ℤ × ℤ × ℤ) :=
  (input.map (voxelIndex lx ly lz)).dedup

/-- Modelled from the spec: one centroid per non-empty voxel of the grid with
edge lengths `lx`, `ly`, `lz`. -/
def voxelCentroids (lx ly lz : ℚ) (input : PointCloudNT) : PointCloudNT :=
  (occupiedVoxels lx ly lz input).map fun k =>
    centroid (input.filter fun p => voxelIndex lx ly lz p = k)

/-- Modelled from the spec: `pcl::VoxelGrid<PointNT>::filter`, library code
that is not part of the sources. Section 4.1: space is partitioned into a
uniform grid of voxels and the cloud is replaced by one representative point
per non-empty voxel, the centroid of the points it contains; normals are
dropped. -/
def VoxelGrid.filter (grid : VoxelGrid) : PointCloudNT :=
  voxelCentroids grid.LeafSize.1 grid.LeafSize.2.1 grid.LeafSize.2.2 grid.InputCloud

/-- The function `Downsample` (PCL.cpp:71-78): sets the leaf size to
`(leaf, leaf, leaf)` and filters `model` into itself. The source has no check
on `leaf` and no failure path, so every call returns normally. -/
def Downsample (model : PointCloudNT) (leaf : ℚ) : Except PipelineError PointCloudNT :=
  let grid : VoxelGrid := { LeafSize := (leaf, leaf, leaf), InputCloud := model }
  .ok grid.filter

/-! ## Poses -/

/-- Modelled from the spec: `pcl::transformPointCloud`, library code that is
not part of the sources, on one point. The 4×4 homogeneous matrix acts on the
position `(x, y, z, 1)`; a normal is carried over as it is. -/
def transformPoint (transform : Matrix4f) (p : PointNT) : PointNT :=
  { p with
    x := transform 0 0 * p.x + transform 0 1 * p.y + transform 0 2 * p.z + transform 0 3
    y := transform 1 0 * p.x + transform 1 1 * p.y + transform 1 2 * p.z + transform 1 3
    z := transform 2 0 * p.x + transform 2 1 * p.y + transform 2 2 * p.z + transform 2 3 }

/-- Modelled from the spec: `pcl::transformPointCloud (cloud_in, cloud_out,
transform)`, returning `cloud_out`. -/
def transformPointCloud (cloud_in : PointCloudNT) (transform : Matrix4f) : PointCloudNT :=
  cloud_in.map (transformPoint transform)

/-- Modelled from the spec: `Eigen::Matrix4f::inverse`, library code that is not
part of the sources; the matrix inverse in exact arithmetic, adjugate over
determinant. -/
def inverse (m : Matrix4f) : Matrix4f :=
  m.det⁻¹ • m.adjugate

/-- The settings the source makes on `pcl::NormalEstimationOMP`. -/
structure NormalEstimationOMP where
  RadiusSearch : ℚ
  InputCloud : PointCloudNT

/-- The settings the source makes on `FeatureEstimationT`
(`pcl::FPFHEstimationOMP`). -/
structure FPFHEstimationOMP where
  RadiusSearch : ℚ
  InputCloud : PointCloudNT
  InputNormals : PointCloudNT

/-- The settings the source makes on `pcl::SampleConsensusPrerejective`. -/
structure SampleConsensusPrerejective where
  InputSource : PointCloudNT
  SourceFeatures : FeatureCloudT
  InputTarget : PointCloudNT
  TargetFeatures : FeatureCloudT
  MaximumIterations : ℤ
  NumberOfSamples : ℤ
  CorrespondenceRandomness : ℤ
  SimilarityThreshold : ℚ
  MaxCorrespondenceDistance : ℚ
  InlierFraction : ℚ

/-- The settings the source makes on `pcl::IterativeClosestPoint`. -/
structure IterativeClosestPoint where
  InputSource : PointCloudNT
  InputTarget : PointCloudNT
  EuclideanFitnessEpsilon : ℚ
  MaximumIterations : ℤ
  TransformationEpsilon : ℚ

/-- What `align (output)` of a PCL registration object leaves behind: the
output cloud, `getFinalTransformation ()` and `hasConverged ()`. -/
structure AlignOutcome where
  output : PointCloudNT
  finalTransformation : Matrix4f
  hasConverged : Bool

/-- The PCL algorithms `Registration` runs, as functions of the settings made
on the object and, for `align`, of the cloud passed in as output. -/
structure PclStages where
  normalEstimation : NormalEstimationOMP → PointCloudNT
  fpfhEstimation : FPFHEstimationOMP → FeatureCloudT
  ransacAlign : SampleConsensusPrerejective → PointCloudNT → AlignOutcome
  icpAlign : IterativeClosestPoint → PointCloudNT → AlignOutcome

/-- A call that `Registration` makes into PCL, with the settings it was made
under. -/
inductive StageCall where
  | voxelGridFilter (grid : VoxelGrid)
  | normalEstimationCompute (nest : NormalEstimationOMP)
  | fpfhCompute (fest : FPFHEstimationOMP)
  | ransacAlign (ransac : SampleConsensusPrerejective) (output : PointCloudNT)
  | icpAlign (icp : IterativeClosestPoint) (output : PointCloudNT)
  | transformPointCloud (cloud_in : PointCloudNT) (transform : Matrix4f)

/-- What one call of `Registration` leaves behind: the returned matrix, the
three clouds passed by reference, whether the viewer was shown, and the PCL
calls made, in order. -/
structure RegistrationRun where
  result : Matrix4f
  model : PointCloudNT
  mesh : PointCloudNT
  model_align : PointCloudNT
  viewerSpun : Bool
  trace : List StageCall

/-! ## Registration (PCL.cpp:103-208) -/

/-- The voxel grid of the `Downsample` block (PCL.cpp:120-129). -/
def sceneGrid (mesh : PointCloudNT) (leaf : ℚ) : VoxelGrid :=
  { LeafSize := (leaf, leaf, leaf), InputCloud := mesh }

/-- The scene after `grid.filter (*mesh)`. -/
def sceneDownsampled (mesh : PointCloudNT) (leaf : ℚ) : PointCloudNT :=
  (sceneGrid mesh leaf).filter

/-- The normal estimation of the block at PCL.cpp:130-139. -/
def sceneNormals (mesh : PointCloudNT) (leaf : ℚ) : NormalEstimationOMP :=
  { RadiusSearch := leaf, InputCloud := sceneDownsampled mesh leaf }

/-- The scene after `nest.compute (*mesh)`. -/
def sceneWithNormals (pcl : PclStages) (mesh : PointCloudNT) (leaf : ℚ) : PointCloudNT :=
  pcl.normalEstimation (sceneNormals mesh leaf)

/-- The feature estimation on the model (PCL.cpp:143-146). -/
def modelFest (model : PointCloudNT) (leaf : ℚ) : FPFHEstimationOMP :=
  { RadiusSearch := 5 * leaf, InputCloud := model, InputNormals := model }

/-- The feature estimation on the scene (PCL.cpp:147-149). -/
def sceneFest (pcl : PclStages) (mesh : PointCloudNT) (leaf : ℚ) : FPFHEstimationOMP :=
  { RadiusSearch := 5 * leaf
    InputCloud := sceneWithNormals pcl mesh leaf
    InputNormals := sceneWithNormals pcl mesh leaf }

/-- The RANSAC object as set up at PCL.cpp:152-162. -/
def ransacSetup (pcl : PclStages) (model mesh : PointCloudNT) (leaf : ℚ) :
    SampleConsensusPrerejective :=
  { InputSource := model
    SourceFeatures := pcl.fpfhEstimation (modelFest model leaf)
    InputTarget := sceneWithNormals pcl mesh leaf
    TargetFeatures := pcl.fpfhEstimation (sceneFest pcl mesh leaf)
    MaximumIterations := 50000
    NumberOfSamples := 4
    CorrespondenceRandomness := 5
    SimilarityThreshold := 9 / 10
    MaxCorrespondenceDistance := 5 / 2 * leaf
    InlierFraction := 1 / 4 }

/-- The outcome of `ransac.align (*model_align)` (PCL.cpp:164-168). -/
def globalAlignment (pcl : PclStages) (model mesh model_align : PointCloudNT) (leaf : ℚ) :
    AlignOutcome :=
  pcl.ransacAlign (ransacSetup pcl model mesh leaf) model_align

/-- The ICP object as set up at PCL.cpp:177-187: the scene is the source and
the globally aligned model the target. -/
def icpSetup (pcl : PclStages) (model mesh model_align : PointCloudNT) (leaf : ℚ) :
    IterativeClosestPoint :=
  { InputSource := sceneWithNormals pcl mesh leaf
    InputTarget := (globalAlignment pcl model mesh model_align leaf).output
    EuclideanFitnessEpsilon := 2 / 100000000
    MaximumIterations := 1000
    TransformationEpsilon := 2 / 100000000 }

/-- The outcome of `icp.align (*mesh)` (PCL.cpp:188-192). -/
def localRefinement (pcl : PclStages) (model mesh model_align : PointCloudNT) (leaf : ℚ) :
    AlignOutcome :=
  pcl.icpAlign (icpSetup pcl model mesh model_align leaf) (sceneWithNormals pcl mesh leaf)

/-- The calls up to and including `ransac.align` (PCL.cpp:120-167). -/
def globalTrace (pcl : PclStages) (model mesh model_align : PointCloudNT) (leaf : ℚ) :
    List StageCall :=
  [ .voxelGridFilter (sceneGrid mesh leaf),
    .normalEstimationCompute (sceneNormals mesh leaf),
    .fpfhCompute (modelFest model leaf),
    .fpfhCompute (sceneFest pcl mesh leaf),
    .ransacAlign (ransacSetup pcl model mesh leaf) model_align ]

/-- The function `Registration` (PCL.cpp:103-208). The source has no check on
its arguments and no failure path other than returning early when RANSAC has
not converged, so every call returns normally. -/
def Registration (pcl : PclStages) (model mesh model_align : PointCloudNT) (leaf : ℚ)
    (showGraphic : Bool) : Except PipelineError RegistrationRun :=
  let ransac := globalAlignment pcl model mesh model_align leaf
  let transformation_ransac := ransac.finalTransformation
  if !ransac.hasConverged then
    .ok { result := transformation_ransac
          model := model
          mesh := sceneWithNormals pcl mesh leaf
          model_align := ransac.output
          viewerSpun := false
          trace := globalTrace pcl model mesh model_align leaf }
  else
    let icp := localRefinement pcl model mesh model_align leaf
    let transformation_icp := icp.finalTransformation
    let inverse := inverse transformation_icp
    .ok { result := transformation_icp * transformation_ransac
          model := model
          mesh := icp.output
          model_align := transformPointCloud ransac.output inverse
          viewerSpun := showGraphic
          trace := globalTrace pcl model mesh model_align leaf ++
            [ .icpAlign (icpSetup pcl model mesh model_align leaf)
                (sceneWithNormals pcl mesh leaf),
              .transformPointCloud ransac.output inverse ] }

/-! ## The parameter record (PCL.hpp:26-39) -/

/-- Stages that follow a script: normal estimation leaves the cloud as it is,
every descriptor is zero, the global aligner reports `T_global` and
`converged` and outputs its source moved by `T_global`, the refiner reports
`T_icp` and outputs its source moved by `T_icp`. -/
def scriptedStages (T_global T_icp : Matrix4f) (converged : Bool) : PclStages :=
  { normalEstimation := fun nest => nest.InputCloud
    fpfhEstimation := fun fest => fest.InputCloud.map fun _ _ => 0
    ransacAlign := fun ransac _ =>
      { output := transformPointCloud ransac.InputSource T_global
        finalTransformation := T_global
        hasConverged := converged }
    icpAlign := fun icp _ =>
      { output := transformPointCloud icp.InputSource T_icp
        finalTransformation := T_icp
        hasConverged := true } }

/-- Translation by `t` along the x axis. -/
def translateX (t : ℚ) : Matrix4f :=
  Matrix.of fun i j => if i = j then 1 else if i = 0 ∧ j = 3 then t else 0

/-- The point at `(a, 0, 0)`, without a normal. -/
def onXAxis (a : ℚ) : PointNT :=
  { x := a, y := 0, z := 0, normal := none }

/-! ## Voxel grid lemmas -/

theorem sum_bounds (lo hi : ℚ) (l : List ℚ) (hne : l ≠ [])
    (h : ∀ a ∈ l, lo ≤ a ∧ a < hi) :
    lo * l.length ≤ l.sum ∧ l.sum < hi * l.length := by
  induction l with
  | nil => exact absurd rfl hne
  | cons a t ih =>
    have ha := h a (List.mem_cons_self a t)
    by_cases ht : t = []
    · subst ht
      simpa using ha
    · have iht := ih ht (fun b hb => h b (List.mem_cons_of_mem a hb))
      simp only [List.sum_cons, List.length_cons, Nat.cast_add, Nat.cast_one]
      constructor <;> nlinarith [ha.1, ha.2, iht.1, iht.2]

theorem floor_mean (L : ℚ) (hL : 0 < L) (k : ℤ) (l : List ℚ) (hne : l ≠ [])
    (h : ∀ a ∈ l, ⌊a / L⌋ = k) : ⌊l.sum / l.length / L⌋ = k := by
  have hn : (0 : ℚ) < l.length := by
    have : 0 < l.length := List.length_pos.mpr hne
    exact_mod_cast this
  have hb := sum_bounds (k * L) ((k + 1) * L) l hne (by
    intro a ha
    have := Int.floor_eq_iff.mp (h a ha)
    rw [le_div_iff₀ hL, div_lt_iff₀ hL] at this
    exact this)
  rw [Int.floor_eq_iff, le_div_iff₀ hL, div_lt_iff₀ hL, le_div_iff₀ hn, div_lt_iff₀ hn]
  exact hb

theorem voxelIndex_centroid (lx ly lz : ℚ) (hx : 0 < lx) (hy : 0 < ly) (hz : 0 < lz)
    (k : ℤ × ℤ × ℤ) (ps : List PointNT) (hne : ps ≠ [])
    (h : ∀ p ∈ ps, voxelIndex lx ly lz p = k) :
    voxelIndex lx ly lz (centroid ps) = k := by
  obtain ⟨kx, ky, kz⟩ := k
  have hlen : ∀ f : PointNT → ℚ, (ps.map f).length = ps.length := fun f => List.length_map ps f
  have hne' : ∀ f : PointNT → ℚ, ps.map f ≠ [] := fun f => by simpa using hne
  simp only [voxelIndex, centroid, Prod.mk.injEq] at h ⊢
  refine ⟨?_, ?_, ?_⟩
  · have := floor_mean lx hx kx (ps.map PointNT.x) (hne' _) (by
      intro a ha
      obtain ⟨p, hp, rfl⟩ := List.mem_map.mp ha
      exact (h p hp).1)
    simpa using this
  · have := floor_mean ly hy ky (ps.map PointNT.y) (hne' _) (by
      intro a ha
      obtain ⟨p, hp, rfl⟩ := List.mem_map.mp ha
      exact (h p hp).2.1)
    simpa using this
  · have := floor_mean lz hz kz (ps.map PointNT.z) (hne' _) (by
      intro a ha
      obtain ⟨p, hp, rfl⟩ := List.mem_map.mp ha
      exact (h p hp).2.2)
    simpa using this

theorem map_voxelIndex_voxelCentroids (lx ly lz : ℚ) (hx : 0 < lx) (hy : 0 < ly) (hz : 0 < lz)
    (input : PointCloudNT) :
    (voxelCentroids lx ly lz input).map (voxelIndex lx ly lz) = occupiedVoxels lx ly lz input := by
  unfold voxelCentroids
  rw [List.map_map]
  conv_rhs => rw [← List.map_id (occupiedVoxels lx ly lz input)]
  apply List.map_congr_left
  intro k hk
  simp only [Function.comp_apply, id]
  have hk' : k ∈ input.map (voxelIndex lx ly lz) := List.mem_dedup.mp hk
  obtain ⟨p, hp, hpk⟩ := List.mem_map.mp hk'
  apply voxelIndex_centroid lx ly lz hx hy hz
  · intro hnil
    have : p ∈ input.filter fun q => voxelIndex lx ly lz q = k := by
      simp [List.mem_filter, hp, hpk]
    rw [hnil] at this
    exact List.not_mem_nil _ this
  · intro q hq
    simpa using (List.mem_filter.mp hq).2

theorem length_voxelCentroids_le (lx ly lz : ℚ) (input : PointCloudNT) :
    (voxelCentroids lx ly lz input).length ≤ input.length := by
  unfold voxelCentroids occupiedVoxels
  rw [List.length_map]
  calc (input.map (voxelIndex lx ly lz)).dedup.length
      ≤ (input.map (voxelIndex lx ly lz)).length := (List.dedup_sublist _).length_le
    _ = input.length := List.length_map _ _

theorem filter_eq_singleton {α β : Type} [DecidableEq β] (f : α → β) (l : List α)
    (hnd : (l.map f).Nodup) (a : α) (ha : a ∈ l) :
    (l.filter fun b => f b = f a) = [a] := by
  induction l with
  | nil => exact absurd ha (List.not_mem_nil a)
  | cons b t ih =>
    rw [List.map_cons, List.nodup_cons] at hnd
    rcases List.mem_cons.mp ha with rfl | hat
    · have : (t.filter fun b => f b = f a) = [] := by
        rw [List.filter_eq_nil_iff]
        intro c hc hEq
        exact hnd.1 (List.mem_map.mpr ⟨c, hc, by simpa using hEq⟩)
      simp [List.filter_cons, this]
    · have hne : f b ≠ f a := fun hEq => hnd.1 (List.mem_map.mpr ⟨a, hat, hEq.symm⟩)
      simp [List.filter_cons, hne, ih hnd.2 hat]

theorem centroid_singleton (p : PointNT) (hp : p.normal = none) : centroid [p] = p := by
  cases p
  simp_all [centroid]

theorem voxelCentroids_fixed (lx ly lz : ℚ) (out : PointCloudNT)
    (hnd : (out.map (voxelIndex lx ly lz)).Nodup) (hn : ∀ p ∈ out, p.normal = none) :
    voxelCentroids lx ly lz out = out := by
  unfold voxelCentroids occupiedVoxels
  rw [hnd.dedup, List.map_map]
  conv_rhs => rw [← List.map_id out]
  apply List.map_congr_left
  intro p hp
  simp only [Function.comp_apply, id]
  rw [filter_eq_singleton (voxelIndex lx ly lz) out hnd p hp]
  exact centroid_singleton p (hn p hp)

theorem voxelCentroids_idem (lx ly lz : ℚ) (hx : 0 < lx) (hy : 0 < ly) (hz : 0 < lz)
    (input : PointCloudNT) :
    voxelCentroids lx ly lz (voxelCentroids lx ly lz input) = voxelCentroids lx ly lz input := by
  apply voxelCentroids_fixed
  · rw [map_voxelIndex_voxelCentroids lx ly lz hx hy hz]
    exact List.nodup_dedup _
  · intro p hp
    unfold voxelCentroids at hp
    obtain ⟨k, _, rfl⟩ := List.mem_map.mp hp
    rfl


/-! ## Pose lemmas -/

theorem inverse_eq_of_mul_eq_one (a b : Matrix4f) (h : b * a = 1) : inverse a = b := by
  have hdet : a.det ≠ 0 := by
    intro h0
    have := congrArg Matrix.det h
    rw [Matrix.det_mul, h0, mul_zero, Matrix.det_one] at this
    exact zero_ne_one this
  have hinv : inverse a * a = 1 := by
    unfold inverse
    rw [Matrix.smul_mul, Matrix.adjugate_mul, smul_smul, inv_mul_cancel₀ hdet, one_smul]
  have hab : a * b = 1 := Matrix.mul_eq_one_comm.mp h
  calc inverse a = inverse a * (a * b) := by rw [hab, mul_one]
    _ = (inverse a * a) * b := by rw [mul_assoc]
    _ = b := by rw [hinv, one_mul]

theorem translateX_mul (s t : ℚ) : translateX s * translateX t = translateX (s + t) := by
  ext i j
  fin_cases i <;> fin_cases j <;> simp [translateX, Matrix.mul_apply, Fin.sum_univ_four, add_comm]

theorem translateX_zero : translateX 0 = 1 := by
  ext i j
  fin_cases i <;> fin_cases j <;> simp [translateX]

theorem inverse_translateX (t : ℚ) : inverse (translateX t) = translateX (-t) :=
  inverse_eq_of_mul_eq_one _ _ (by rw [translateX_mul, neg_add_cancel, translateX_zero])

theorem transformPoint_translateX (t a : ℚ) :
    transformPoint (translateX t) (onXAxis a) = onXAxis (a + t) := by
  simp [transformPoint, translateX, onXAxis]

theorem registration_not_converged (pcl : PclStages) (model mesh model_align : PointCloudNT)
    (leaf : ℚ) (showGraphic : Bool)
    (h : (globalAlignment pcl model mesh model_align leaf).hasConverged = false) :
    Registration pcl model mesh model_align leaf showGraphic = .ok
      { result := (globalAlignment pcl model mesh model_align leaf).finalTransformation
        model := model
        mesh := sceneWithNormals pcl mesh leaf
        model_align := (globalAlignment pcl model mesh model_align leaf).output
        viewerSpun := false
        trace := globalTrace pcl model mesh model_align leaf } := by
  simp [Registration, h]

theorem registration_converged (pcl : PclStages) (model mesh model_align : PointCloudNT)
    (leaf : ℚ) (showGraphic : Bool)
    (h : (globalAlignment pcl model mesh model_align leaf).hasConverged = true) :
    Registration pcl model mesh model_align leaf showGraphic = .ok
      { result := (localRefinement pcl model mesh model_align leaf).finalTransformation *
          (globalAlignment pcl model mesh model_align leaf).finalTransformation
        model := model
        mesh := (localRefinement pcl model mesh model_align leaf).output
        model_align := transformPointCloud (globalAlignment pcl model mesh model_align leaf).output
          (inverse (localRefinement pcl model mesh model_align leaf).finalTransformation)
        viewerSpun := showGraphic
        trace := globalTrace pcl model mesh model_align leaf ++
          [ .icpAlign (icpSetup pcl model mesh model_align leaf) (sceneWithNormals pcl mesh leaf),
            .transformPointCloud (globalAlignment pcl model mesh model_align leaf).output
              (inverse (localRefinement pcl model mesh model_align leaf).finalTransformation) ] } := by
  simp [Registration, h]

/-- The run the scripted stages give on a one-point model at the origin and a
one-point scene at `x = 1`, with the global aligner reporting a shift by 2 and
the refiner a shift by 1. -/
theorem scripted_run :
    Registration (scriptedStages (translateX 2) (translateX 1) true)
        [onXAxis 0] [onXAxis 1] [] 1 false = .ok
      { result := translateX 3
        model := [onXAxis 0]
        mesh := transformPointCloud
          (sceneWithNormals (scriptedStages (translateX 2) (translateX 1) true) [onXAxis 1] 1)
          (translateX 1)
        model_align := [onXAxis 1]
        viewerSpun := false
        trace := globalTrace (scriptedStages (translateX 2) (translateX 1) true)
            [onXAxis 0] [onXAxis 1] [] 1 ++
          [ .icpAlign (icpSetup (scriptedStages (translateX 2) (translateX 1) true)
                [onXAxis 0] [onXAxis 1] [] 1)
              (sceneWithNormals (scriptedStages (translateX 2) (translateX 1) true) [onXAxis 1] 1),
            .transformPointCloud [onXAxis 2] (translateX (-1)) ] } := by
  rw [registration_converged (scriptedStages (translateX 2) (translateX 1) true)
    [onXAxis 0] [onXAxis 1] [] 1 false rfl]
  have hg : (globalAlignment (scriptedStages (translateX 2) (translateX 1) true)
      [onXAxis 0] [onXAxis 1] [] 1).output = [onXAxis 2] := by
    simp [globalAlignment, scriptedStages, ransacSetup, transformPointCloud,
      transformPoint_translateX]
  have hi : (localRefinement (scriptedStages (translateX 2) (translateX 1) true)
      [onXAxis 0] [onXAxis 1] [] 1).finalTransformation = translateX 1 := rfl
  have hr : (globalAlignment (scriptedStages (translateX 2) (translateX 1) true)
      [onXAxis 0] [onXAxis 1] [] 1).finalTransformation = translateX 2 := rfl
  have ho : (localRefinement (scriptedStages (translateX 2) (translateX 1) true)
      [onXAxis 0] [onXAxis 1] [] 1).output = transformPointCloud
        (sceneWithNormals (scriptedStages (translateX 2) (translateX 1) true) [onXAxis 1] 1)
        (translateX 1) := rfl
  rw [hg, hi, hr, ho, inverse_translateX, translateX_mul]
  norm_num [transformPointCloud, transformPoint_translateX]

/-! ## Claims -/

/-- C1. When the global alignment stage reports non-convergence, `Registration`
returns the aligner's final transformation as it is (so the identity whenever
the aligner reports the identity), makes no ICP call and no cloud transform,
leaves the scene as normal estimation produced it and `model_align` as the
aligner wrote it, and leaves the model alone. -/
theorem registration_failed_branch (pcl : PclStages) (model mesh model_align : PointCloudNT)
    (leaf : ℚ) (showGraphic : Bool)
    (h : (globalAlignment pcl model mesh model_align leaf).hasConverged = false) :
    ∃ run, Registration pcl model mesh model_align leaf showGraphic = .ok run ∧
      run.result = (globalAlignment pcl model mesh model_align leaf).finalTransformation ∧
      ((globalAlignment pcl model mesh model_align leaf).finalTransformation = 1 →
        run.result = 1) ∧
      (∀ icp output, StageCall.icpAlign icp output ∉ run.trace) ∧
      (∀ cloud_in transform, StageCall.transformPointCloud cloud_in transform ∉ run.trace) ∧
      run.mesh = pcl.normalEstimation
        { RadiusSearch := leaf, InputCloud := sceneDownsampled mesh leaf } ∧
      run.model_align = (globalAlignment pcl model mesh model_align leaf).output ∧
      run.model = model := by
  refine ⟨_, registration_not_converged pcl model mesh model_align leaf showGraphic h,
    rfl, fun h1 => h1, ?_, ?_, rfl, rfl, rfl⟩
  · intro icp output hmem
    simp [globalTrace] at hmem
  · intro cloud_in transform hmem
    simp [globalTrace] at hmem

/-- C1, at the scripted stages with a global aligner that does not converge. -/
theorem registration_failed_branch_witness :
    (globalAlignment (scriptedStages 1 (translateX 1) false)
        [onXAxis 0] [onXAxis 1] [] 1).hasConverged = false ∧
    ∃ run, Registration (scriptedStages 1 (translateX 1) false)
        [onXAxis 0] [onXAxis 1] [] 1 true = .ok run ∧
      run.result = (globalAlignment (scriptedStages 1 (translateX 1) false)
        [onXAxis 0] [onXAxis 1] [] 1).finalTransformation ∧
      ((globalAlignment (scriptedStages 1 (translateX 1) false)
        [onXAxis 0] [onXAxis 1] [] 1).finalTransformation = 1 → run.result = 1) ∧
      (∀ icp output, StageCall.icpAlign icp output ∉ run.trace) ∧
      (∀ cloud_in transform, StageCall.transformPointCloud cloud_in transform ∉ run.trace) ∧
      run.mesh = (scriptedStages 1 (translateX 1) false).normalEstimation
        { RadiusSearch := 1, InputCloud := sceneDownsampled [onXAxis 1] 1 } ∧
      run.model_align = (globalAlignment (scriptedStages 1 (translateX 1) false)
        [onXAxis 0] [onXAxis 1] [] 1).output ∧
      run.model = [onXAxis 0] :=
  ⟨rfl, registration_failed_branch (scriptedStages 1 (translateX 1) false)
    [onXAxis 0] [onXAxis 1] [] 1 true rfl⟩

/-- C2. A converged run in which the returned matrix does not carry the model
onto `model_align`: with the global aligner reporting a shift by 2 and the
refiner, run from the scene onto the aligned model, a shift by 1, the returned
product is the shift by 3, which sends the model point to `x = 3`, while the
`model_align` written by the run is at `x = 1`. -/
theorem registration_result_misses_model_align :
    ∃ run, Registration (scriptedStages (translateX 2) (translateX 1) true)
        [onXAxis 0] [onXAxis 1] [] 1 false = .ok run ∧
      run.result = translateX 1 * translateX 2 ∧
      transformPointCloud [onXAxis 0] run.result = [onXAxis 3] ∧
      run.model_align = [onXAxis 1] ∧
      transformPointCloud [onXAxis 0] run.result ≠ run.model_align := by
  refine ⟨_, scripted_run, ?_, ?_, rfl, ?_⟩
  · rw [translateX_mul]; norm_num
  · norm_num [transformPointCloud, transformPoint_translateX]
  · simp only [transformPointCloud, List.map, transformPoint_translateX]
    norm_num [onXAxis]

/-- C3. A converged run in which the round trip fails: the inverse of the
returned matrix, applied to the `model_align` of the run, gives a point at
`x = -2`, not the model point at the origin. -/
theorem registration_round_trip_fails :
    ∃ run, Registration (scriptedStages (translateX 2) (translateX 1) true)
        [onXAxis 0] [onXAxis 1] [] 1 false = .ok run ∧
      (run.result).det ≠ 0 ∧
      transformPointCloud run.model_align (inverse run.result) = [onXAxis (-2)] ∧
      transformPointCloud run.model_align (inverse run.result) ≠ [onXAxis 0] := by
  have hdet : (translateX 3).det ≠ 0 := by
    intro h0
    have := congrArg Matrix.det (translateX_mul (-3) 3)
    rw [Matrix.det_mul, h0, mul_zero] at this
    norm_num [translateX_zero] at this
  refine ⟨_, scripted_run, hdet, ?_, ?_⟩
  · norm_num [inverse_translateX, transformPointCloud, transformPoint_translateX]
  · simp only [inverse_translateX, transformPointCloud, List.map, transformPoint_translateX]
    norm_num [onXAxis]

/-- C5, as stated, fails: at the leaf size `-1` (and likewise at `0`)
`Downsample` does not fail with `InvalidParameterError`; it returns a cloud. -/
theorem downsample_nonpositive_leaf_not_rejected :
    (-1 : ℚ) ≤ 0 ∧
    Downsample [onXAxis 0, onXAxis 1] (-1) ≠ Except.error PipelineError.InvalidParameterError ∧
    Downsample [onXAxis 0, onXAxis 1] 0 ≠ Except.error PipelineError.InvalidParameterError ∧
    ∃ out, Downsample [onXAxis 0, onXAxis 1] (-1) = .ok out := by
  refine ⟨by norm_num, ?_, ?_, _, rfl⟩ <;> simp [Downsample]

/-- C5, amended. `Downsample` makes no check on the leaf size: for every cloud
and every leaf, positive or not, it returns normally, with the voxel grid's
output for the leaf size `(leaf, leaf, leaf)` in place of the cloud, and never
fails with `InvalidParameterError`. -/
theorem downsample_never_rejects (model : PointCloudNT) (leaf : ℚ) :
    Downsample model leaf ≠ Except.error PipelineError.InvalidParameterError ∧
    ∃ out, Downsample model leaf = .ok out ∧
      out = VoxelGrid.filter { LeafSize := (leaf, leaf, leaf), InputCloud := model } ∧
      out.length ≤ model.length := by
  refine ⟨by simp [Downsample], _, rfl, rfl, ?_⟩
  exact length_voxelCentroids_le leaf leaf leaf model

/-- C6, as stated, fails: with a scene of 2 points, fewer than the 4 samples
the source sets (and than the 5 of the record), `Registration` does not fail
with `InsufficientDataError`; it calls the global aligner and returns a run
with a transform and `model_align` written. -/
theorem two_point_scene_not_rejected :
    ([onXAxis 0, onXAxis 1] : PointCloudNT).length < 5 ∧
    (([onXAxis 0, onXAxis 1] : PointCloudNT).length : ℤ) <
      (ransacSetup (scriptedStages 1 1 false)
        [onXAxis 0, onXAxis 1, onXAxis 2, onXAxis 3, onXAxis 4]
        [onXAxis 0, onXAxis 1] 1).NumberOfSamples ∧
    Registration (scriptedStages 1 1 false)
        [onXAxis 0, onXAxis 1, onXAxis 2, onXAxis 3, onXAxis 4]
        [onXAxis 0, onXAxis 1] [] 1 false ≠
      Except.error PipelineError.InsufficientDataError ∧
    ∃ run, Registration (scriptedStages 1 1 false)
        [onXAxis 0, onXAxis 1, onXAxis 2, onXAxis 3, onXAxis 4]
        [onXAxis 0, onXAxis 1] [] 1 false = .ok run ∧
      run.result = 1 ∧
      ∃ ransac output, StageCall.ransacAlign ransac output ∈ run.trace := by
  have hrun := registration_not_converged (scriptedStages 1 1 false)
    [onXAxis 0, onXAxis 1, onXAxis 2, onXAxis 3, onXAxis 4] [onXAxis 0, onXAxis 1] [] 1 false rfl
  refine ⟨by decide, by norm_num [ransacSetup], ?_, _, hrun, rfl,
    ransacSetup (scriptedStages 1 1 false)
      [onXAxis 0, onXAxis 1, onXAxis 2, onXAxis 3, onXAxis 4] [onXAxis 0, onXAxis 1] 1,
    [], ?_⟩
  · rw [hrun]; simp
  · simp [globalTrace]

/-- C6, amended. `Registration` makes no check on the size of its clouds: on
every input, however few points the model or the scene has, it returns
normally, having called the global aligner (set to 4 samples) on the model and
on the downsampled scene with normals; the run carries a returned matrix and
the `model_align` the stages wrote. -/
theorem registration_never_rejects (pcl : PclStages) (model mesh model_align : PointCloudNT)
    (leaf : ℚ) (showGraphic : Bool) :
    ∃ run, Registration pcl model mesh model_align leaf showGraphic = .ok run ∧
      (∃ ransac, StageCall.ransacAlign ransac model_align ∈ run.trace ∧
        ransac.InputSource = model ∧ ransac.InputTarget = sceneWithNormals pcl mesh leaf ∧
        ransac.NumberOfSamples = 4) ∧
      run.model_align =
        (if (globalAlignment pcl model mesh model_align leaf).hasConverged then
          transformPointCloud (globalAlignment pcl model mesh model_align leaf).output
            (inverse (localRefinement pcl model mesh model_align leaf).finalTransformation)
        else (globalAlignment pcl model mesh model_align leaf).output) := by
  cases h : (globalAlignment pcl model mesh model_align leaf).hasConverged
  · exact ⟨_, registration_not_converged pcl model mesh model_align leaf showGraphic h,
      ⟨ransacSetup pcl model mesh leaf, by simp [globalTrace], rfl, rfl, rfl⟩, by simp⟩
  · exact ⟨_, registration_converged pcl model mesh model_align leaf showGraphic h,
      ⟨ransacSetup pcl model mesh leaf, by simp [globalTrace], rfl, rfl, rfl⟩, by simp⟩

/-- C7. For a leaf size `L > 0`, `Downsample` returns a cloud with one point
per non-empty voxel of the input: the points of the output lie in pairwise
different voxels, the voxels they lie in are the voxels that hold an input
point, each output point is the centroid of the input points of its voxel,
and the output has at most as many points as the input. -/
theorem downsample_one_point_per_voxel (C : PointCloudNT) (L : ℚ) (hL : 0 < L) :
    ∃ out, Downsample C L = .ok out ∧
      (out.map (voxelIndex L L L)).Nodup ∧
      (∀ k, k ∈ out.map (voxelIndex L L L) ↔ k ∈ C.map (voxelIndex L L L)) ∧
      (∀ p ∈ out,
        p = centroid (C.filter fun q => voxelIndex L L L q = voxelIndex L L L p)) ∧
      out.length ≤ C.length := by
  have hmap := map_voxelIndex_voxelCentroids L L L hL hL hL C
  refine ⟨voxelCentroids L L L C, rfl, ?_, ?_, ?_, length_voxelCentroids_le L L L C⟩
  · rw [hmap]
    exact List.nodup_dedup _
  · intro k
    rw [hmap]
    exact List.mem_dedup
  · intro p hp
    have hk : voxelIndex L L L p ∈ occupiedVoxels L L L C := by
      rw [← hmap]
      exact List.mem_map_of_mem _ hp
    obtain ⟨k, hk', rfl⟩ := List.mem_map.mp hp
    have hkp : (List.map (voxelIndex L L L) (voxelCentroids L L L C)).Nodup := by
      rw [hmap]
      exact List.nodup_dedup _
    obtain ⟨q, hq, hqk⟩ := List.mem_map.mp (List.mem_dedup.mp hk')
    have hidx : voxelIndex L L L
        (centroid (C.filter fun p => voxelIndex L L L p = k)) = k := by
      apply voxelIndex_centroid L L L hL hL hL
      · intro hnil
        have : q ∈ C.filter fun p => voxelIndex L L L p = k := by
          simp [List.mem_filter, hq, hqk]
        rw [hnil] at this
        exact List.not_mem_nil _ this
      · intro r hr
        simpa using (List.mem_filter.mp hr).2
    rw [hidx]

/-- C7, at a three-point cloud and leaf size 1. -/
theorem downsample_one_point_per_voxel_witness :
    (0 : ℚ) < 1 ∧
    ∃ out, Downsample [onXAxis 0, onXAxis (1 / 2), onXAxis 1] 1 = .ok out ∧
      (out.map (voxelIndex 1 1 1)).Nodup ∧
      (∀ k, k ∈ out.map (voxelIndex 1 1 1) ↔
        k ∈ [onXAxis 0, onXAxis (1 / 2), onXAxis 1].map (voxelIndex 1 1 1)) ∧
      (∀ p ∈ out, p = centroid ([onXAxis 0, onXAxis (1 / 2), onXAxis 1].filter
        fun q => voxelIndex 1 1 1 q = voxelIndex 1 1 1 p)) ∧
      out.length ≤ [onXAxis 0, onXAxis (1 / 2), onXAxis 1].length :=
  ⟨one_pos, downsample_one_point_per_voxel [onXAxis 0, onXAxis (1 / 2), onXAxis 1] 1 one_pos⟩

/-- C8. For a leaf size `L > 0`, downsampling the output of `Downsample` again
at the same leaf size gives back that output, point for point. -/
theorem downsample_idempotent (C : PointCloudNT) (L : ℚ) (hL : 0 < L) :
    ∃ out, Downsample C L = .ok out ∧ Downsample out L = .ok out := by
  refine ⟨voxelCentroids L L L C, rfl, ?_⟩
  exact congrArg Except.ok (voxelCentroids_idem L L L hL hL hL C)

/-- C8, at a three-point cloud and leaf size 1. -/
theorem downsample_idempotent_witness :
    (0 : ℚ) < 1 ∧
    ∃ out, Downsample [onXAxis 0, onXAxis (1 / 2), onXAxis 1] 1 = .ok out ∧
      Downsample out 1 = .ok out :=
  ⟨one_pos, downsample_idempotent [onXAxis 0, onXAxis (1 / 2), onXAxis 1] 1 one_pos⟩

end RobotGrasp
